import Mathlib

/-!
Shallow embedding of `chrome_driver.py` (GoogleFindMyTools Home Assistant add-on).

The module has two procedures:
  * `find_chrome`  - locates a Chrome/Chromium executable: fixed candidate
    paths, then Flatpak app listing (Linux only), then PATH lookup.
  * `create_driver` - attempts default driver construction, on failure asks
    `find_chrome` and retries once (Flatpak wrapper script or direct path),
    raising a single terminal error when everything fails.

All external effects (filesystem existence checks, `platform.system()`,
`shutil.which`, the `flatpak list --app` subprocess, `os.environ`, driver
construction, temp-file creation, `os.unlink`) are supplied by an explicit
environment record.  Each embedded function additionally returns the list of
observable events it performs, so ordering and "never spawned" claims become
statements about the trace.
-/

/-- ASCII lower-casing of one character (the case that matters for the
`"true"` comparison). -/
def lowerChar (c : Char) : Char :=
  if 65 ≤ c.toNat ∧ c.toNat ≤ 90 then Char.ofNat (c.toNat + 32) else c

/-- Python `str.lower()`: lower-case every character. -/
def pyLower (s : String) : String :=
  ⟨s.data.map lowerChar⟩

/-- Python truthiness of an `Optional[str]`: `None` and the empty string are
falsy, every other string is truthy. -/
def pyTruthy : Option String → Bool
  | none => false
  | some s => s ≠ ""

/-- Is `pat` a prefix of `s` (on character lists)? -/
def charsPrefix : List Char → List Char → Bool
  | [], _ => true
  | _ :: _, [] => false
  | a :: as, b :: bs => a = b && charsPrefix as bs

/-- Does `s` contain `pat` as a contiguous substring (on character lists)?
Models the Python `pat in s` test on strings. -/
def charsContains (pat : List Char) : List Char → Bool
  | [] => charsPrefix pat []
  | c :: rest => charsPrefix pat (c :: rest) || charsContains pat rest

/-- Python `pat in s` substring membership. -/
def strContains (s pat : String) : Bool :=
  charsContains pat.data s.data

/-- Python `s.startswith(pre)`. -/
def strStartsWith (s pre : String) : Bool :=
  charsPrefix pre.data s.data

/-- Result of a completed `subprocess.run` call: return code and stdout
(`capture_output=True, text=True`). -/
structure FlatpakResult where
  returncode : Int
  stdout : String
deriving DecidableEq

/-- The failures `subprocess.run(["flatpak", "list", "--app"], timeout=10)` can
raise.  The source's `except (subprocess.TimeoutExpired,
subprocess.SubprocessError)` clause catches exactly the first two.  A spawn
failure, however, raises `OSError` (e.g. `FileNotFoundError` when the binary
vanishes after the `shutil.which` guard, or `ENOEXEC` for a broken
executable); `OSError` is not a `SubprocessError`, so that failure is not
caught and propagates out of `find_chrome`. -/
inductive SubprocFail where
  | timeoutExpired (msg : String)
  | subprocessError (msg : String)
  | osError (msg : String)
deriving DecidableEq

/-- A Python exception rendered as its message, as raised by a `shutil.which`
lookup inside the PATH-lookup `try` block. -/
abbrev PyExc := String

deriving instance DecidableEq for Except

/-- Observable events performed by `find_chrome`. -/
inductive Event where
  | checkPath (p : String)
  | spawnFlatpakList
  | lookupWhich (cmd : String)
  | logInfo (m : String)
  | logWarning (m : String)
  | logError (m : String)
deriving DecidableEq

/-- Is the event a candidate-path existence check? -/
def Event.isCheckPath : Event → Bool
  | .checkPath _ => true
  | _ => false

/-- Is the event a `shutil.which` lookup of the PATH-lookup step? -/
def Event.isLookup : Event → Bool
  | .lookupWhich _ => true
  | _ => false

/-- Is the event a warning-level log line? -/
def Event.isLogWarning : Event → Bool
  | .logWarning _ => true
  | _ => false

/-- The oracle for every external call `find_chrome` makes. -/
structure Env where
  /-- `os.path.exists` -/
  pathExists : String → Bool
  /-- `platform.system()` -/
  systemName : String
  /-- `shutil.which("flatpak")` (step 2 guard) -/
  whichFlatpak : Option String
  /-- outcome of `subprocess.run(["flatpak", "list", "--app"], ..., timeout=10)`;
  an `osError` failure is the uncaught spawn `OSError` case -/
  flatpakList : Except SubprocFail FlatpakResult
  /-- `shutil.which` for the PATH-lookup step; may raise (caught broadly) -/
  which : String → Except PyExc (Option String)

/-- The fixed candidate list of `find_chrome` (`possiblePaths` in the source). -/
def possiblePaths : List String := [
  "C:\\Program Files\\Google\\Chrome\\Application\\chrome.exe",
  "C:\\Program Files (x86)\\Google\\Chrome\\Application\\chrome.exe",
  "C:\\ProgramData\\chocolatey\\bin\\chrome.exe",
  "C:\\Users\\%USERNAME%\\AppData\\Local\\Google\\Chrome\\Application\\chrome.exe",
  "/usr/bin/google-chrome",
  "/usr/local/bin/google-chrome",
  "/opt/google/chrome/chrome",
  "/snap/bin/chromium",
  "/Applications/Google Chrome.app/Contents/MacOS/Google Chrome"]

/-- Known Flatpak app identifiers (`flatpak_chrome_apps` in the source). -/
def flatpak_chrome_apps : List String :=
  ["com.google.Chrome", "org.chromium.Chromium"]

/-- Step 1 of `find_chrome`: `for path in possiblePaths: if os.path.exists(path):
return path`.  Returns the first existing path and records every existence
check performed. -/
def scanPaths (ex : String → Bool) : List String → Option String × List Event
  | [] => (none, [])
  | p :: rest =>
    if ex p then (some p, [Event.checkPath p])
    else
      let r := scanPaths ex rest
      (r.1, Event.checkPath p :: r.2)

/-- Step 2 of `find_chrome`: the Flatpak probe.  Only on Linux, only when
`shutil.which("flatpak")` is truthy.  A `TimeoutExpired` or `SubprocessError`
failure is caught by the except clause and logged; an `OSError` spawn failure
is not named there and propagates (the `Except.error` result).  On return code
0 the stdout is membership-tested against the known app ids in order. -/
def flatpakStep (env : Env) : Except PyExc (Option String) × List Event :=
  if env.systemName = "Linux" then
    if pyTruthy env.whichFlatpak then
      match env.flatpakList with
      | .error (.timeoutExpired m) | .error (.subprocessError m) =>
        (Except.ok none,
         [Event.spawnFlatpakList,
          Event.logWarning ("Error checking Flatpak installations: " ++ m)])
      | .error (.osError m) => (Except.error m, [Event.spawnFlatpakList])
      | .ok res =>
        if res.returncode = 0 then
          match flatpak_chrome_apps.find? (fun app_id => strContains res.stdout app_id) with
          | some app_id =>
            (Except.ok (some ("flatpak run " ++ app_id)),
             [Event.spawnFlatpakList,
              Event.logInfo ("Found Flatpak Chrome installation: " ++ app_id)])
          | none => (Except.ok none, [Event.spawnFlatpakList])
        else (Except.ok none, [Event.spawnFlatpakList])
    else (Except.ok none, [])
  else (Except.ok none, [])

/-- Step 3 of `find_chrome`: PATH lookup inside a broad `try`.  On Windows
`shutil.which("chrome")`; elsewhere `shutil.which("google-chrome") or
shutil.which("chromium")` (Python `or`: the second lookup runs only when the
first result is falsy).  A raised lookup failure is caught and logged and the
step yields nothing. -/
def pathLookup (env : Env) : Option String × List Event :=
  if env.systemName = "Windows" then
    match env.which "chrome" with
    | .error e =>
      (none, [Event.lookupWhich "chrome",
              Event.logError ("Error while searching system paths for Chrome: " ++ e)])
    | .ok cp =>
      (if pyTruthy cp then cp else none, [Event.lookupWhich "chrome"])
  else
    match env.which "google-chrome" with
    | .error e =>
      (none, [Event.lookupWhich "google-chrome",
              Event.logError ("Error while searching system paths for Chrome: " ++ e)])
    | .ok gp =>
      if pyTruthy gp then (gp, [Event.lookupWhich "google-chrome"])
      else
        match env.which "chromium" with
        | .error e =>
          (none, [Event.lookupWhich "google-chrome", Event.lookupWhich "chromium",
                  Event.logError ("Error while searching system paths for Chrome: " ++ e)])
        | .ok cp =>
          (if pyTruthy cp then cp else none,
           [Event.lookupWhich "google-chrome", Event.lookupWhich "chromium"])

/-- `find_chrome()`: candidate paths, then Flatpak, then PATH lookup; first
non-empty result wins; yields `Except.ok none` ("not found") when nothing
matched, and `Except.error` when the Flatpak listing raised the uncaught
spawn `OSError`.  The second component is the trace of performed events. -/
def find_chrome (env : Env) : Except PyExc (Option String) × List Event :=
  let s1 := scanPaths env.pathExists possiblePaths
  match s1.1 with
  | some p => (Except.ok (some p), s1.2)
  | none =>
    let s2 := flatpakStep env
    match s2.1 with
    | .error exc => (Except.error exc, s1.2 ++ s2.2)
    | .ok (some s) => (Except.ok (some s), s1.2 ++ s2.2)
    | .ok none =>
      let s3 := pathLookup env
      (Except.ok s3.1, s1.2 ++ s2.2 ++ s3.2)

/-- `uc.ChromeOptions`: the ordered list of added arguments plus the
`binary_location` attribute (unset at construction). -/
structure ChromeOptions where
  args : List String
  binary_location : Option String
deriving DecidableEq

/-- `ChromeOptions()` fresh from the constructor. -/
def emptyOptions : ChromeOptions := { args := [], binary_location := none }

/-- `chrome_options.add_argument(a)` appends `a`. -/
def add_argument (o : ChromeOptions) (a : String) : ChromeOptions :=
  { o with args := o.args ++ [a] }

/-- `get_options()`: the four fixed arguments, plus `--headless=new` when
`os.environ.get("HEADLESS", "false").lower() == "true"`.  `getEnvVar` is
`os.environ.get`. -/
def get_options (getEnvVar : String → Option String) : ChromeOptions :=
  let o := add_argument emptyOptions "--start-maximised"
  let o := add_argument o "--disable-extensions"
  let o := add_argument o "--disable-gpu"
  let o := add_argument o "--no-sandbox"
  if pyLower ((getEnvVar "HEADLESS").getD "false") = "true" then
    add_argument o "--headless=new"
  else o

/-- The body of the generated wrapper script:
an `exec` of the Flatpak command forwarding all arguments. -/
def wrapper_content (flatpak_command : String) : String :=
  "#!/bin/bash\nexec " ++ flatpak_command ++ " \"$@\"\n"

/-- The single terminal error message `create_driver` raises. -/
def terminalMsg : String :=
  "[ChromeDriver] Failed to install ChromeDriver. A current version of Chrome was not detected on your system.\nIf you know that Chrome is installed (including Flatpak versions), update Chrome to the latest version. If the script is still not working, set the path to your Chrome executable manually inside the script.\nFor Flatpak Chrome, ensure you have either \x27com.google.Chrome\x27 or \x27org.chromium.Chromium\x27 installed."

/-- Observable events performed by `create_driver`. -/
inductive DEvent where
  /-- a `uc.Chrome(options=opts, browser_executable_path=execPath)` call
  (`execPath = none` for the default attempt with no explicit path) -/
  | constructAttempt (opts : ChromeOptions) (execPath : Option String)
  /-- the temp wrapper file written with the given content and chmod mode -/
  | createWrapper (path content : String) (mode : Nat)
  /-- an `os.unlink` of the wrapper; `ok = false` when the unlink raised
  (the exception is swallowed by the bare `except: pass`) -/
  | unlinkWrapper (path : String) (ok : Bool)
  | logInfo (m : String)
  | logWarning (m : String)
  | logError (m : String)
deriving DecidableEq

/-- Is the event a driver-construction attempt? -/
def DEvent.isConstruct : DEvent → Bool
  | .constructAttempt _ _ => true
  | _ => false

/-- Is the event a wrapper-script unlink? -/
def DEvent.isUnlink : DEvent → Bool
  | .unlinkWrapper _ _ => true
  | _ => false

/-- The opaque live driver handle: recorded as the successful construction
call (options and explicit executable path). -/
structure Driver where
  opts : ChromeOptions
  execPath : Option String
deriving DecidableEq

/-- Oracle for the external calls of `create_driver`. -/
structure DrvEnv where
  /-- environment of the embedded `find_chrome` call -/
  fenv : Env
  /-- `os.environ.get` for `get_options` -/
  getEnvVar : String → Option String
  /-- the name `tempfile.NamedTemporaryFile(suffix=".sh", delete=False)` picks -/
  tempName : String
  /-- does `uc.Chrome(options, browser_executable_path)` succeed? -/
  constructOk : ChromeOptions → Option String → Bool
  /-- does `os.unlink` on the wrapper raise? (swallowed either way) -/
  unlinkFails : Bool

/-- `create_flatpak_wrapper_script(flatpak_command)`: writes the wrapper body
to a fresh temp file, chmods it `0o755`, logs, and returns its path. -/
def create_flatpak_wrapper_script (tempName flatpak_command : String) :
    String × List DEvent :=
  (tempName,
   [DEvent.createWrapper tempName (wrapper_content flatpak_command) 0o755,
    DEvent.logInfo ("Created Flatpak wrapper script at: " ++ tempName)])

/-- What `create_driver` can raise: the single terminal error built at the
end, or an exception that escaped the `find_chrome()` call inside the
`except Exception` handler (the uncaught spawn `OSError` of the Flatpak
listing), which propagates to the caller. -/
inductive Raised where
  | terminal (msg : String)
  | uncaught (exc : PyExc)
deriving DecidableEq

/-- `create_driver()`: default attempt; on failure `find_chrome`; a raised
exception from `find_chrome` propagates (`Raised.uncaught`); "not found"
means the terminal error; a Flatpak invocation gets a wrapper script (binary
location, explicit executable path, two extra options, best-effort unlink on
retry failure); a direct path is retried as binary location and explicit
executable path; every fall-through raises the single terminal error. -/
def create_driver (env : DrvEnv) : Except Raised Driver × List DEvent :=
  let opts := get_options env.getEnvVar
  if env.constructOk opts none then
    (Except.ok { opts := opts, execPath := none },
     [DEvent.constructAttempt opts none,
      DEvent.logInfo "ChromeDriver installed and browser started."])
  else
    let ev0 := [DEvent.constructAttempt opts none,
                DEvent.logWarning "Default ChromeDriver creation failed. Trying alternative paths..."]
    match (find_chrome env.fenv).1 with
    | .error exc => (Except.error (Raised.uncaught exc), ev0)
    | .ok none =>
      (Except.error (Raised.terminal terminalMsg),
       ev0 ++ [DEvent.logError "No Chrome executable found in known paths or Flatpak installations."])
    | .ok (some chrome_path) =>
      let opts2 := get_options env.getEnvVar
      if strStartsWith chrome_path "flatpak run" then
        let w := create_flatpak_wrapper_script env.tempName chrome_path
        let opts3 := add_argument
          (add_argument { opts2 with binary_location := some w.1 } "--disable-dev-shm-usage")
          "--disable-setuid-sandbox"
        let ev1 := ev0 ++ w.2 ++ [DEvent.constructAttempt opts3 (some w.1)]
        if env.constructOk opts3 (some w.1) then
          (Except.ok { opts := opts3, execPath := some w.1 },
           ev1 ++ [DEvent.logInfo ("ChromeDriver started using Flatpak Chrome: " ++ chrome_path)])
        else
          (Except.error (Raised.terminal terminalMsg),
           ev1 ++ [DEvent.logError ("ChromeDriver failed using Flatpak Chrome " ++ chrome_path),
                   DEvent.unlinkWrapper w.1 (!env.unlinkFails)])
      else
        let opts3 := { opts2 with binary_location := some chrome_path }
        let ev1 := ev0 ++ [DEvent.constructAttempt opts3 (some chrome_path)]
        if env.constructOk opts3 (some chrome_path) then
          (Except.ok { opts := opts3, execPath := some chrome_path },
           ev1 ++ [DEvent.logInfo ("ChromeDriver started using browser_executable_path: " ++ chrome_path)])
        else
          (Except.error (Raised.terminal terminalMsg),
           ev1 ++ [DEvent.logError ("ChromeDriver failed using path " ++ chrome_path)])

example : strContains "abc org.chromium.Chromium xyz" "org.chromium.Chromium" = true := by decide
example : strContains "nothing here" "com.google.Chrome" = false := by decide

theorem scanPaths_fst (ex : String → Bool) (l : List String) :
    (scanPaths ex l).1 = l.find? ex := by
  induction l with
  | nil => rfl
  | cons p rest ih =>
    cases h : ex p <;> simp [scanPaths, List.find?_cons, h, ih]

theorem scanPaths_trace_check (ex : String → Bool) (l : List String) :
    ∀ e ∈ (scanPaths ex l).2, e.isCheckPath = true := by
  induction l with
  | nil => intro e he; simp [scanPaths] at he
  | cons p rest ih =>
    intro e he
    cases h : ex p with
    | true =>
      simp [scanPaths, h] at he
      simp [he, Event.isCheckPath]
    | false =>
      simp [scanPaths, h] at he
      rcases he with he | he
      · simp [he, Event.isCheckPath]
      · exact ih e he

theorem scanPaths_none (ex : String → Bool) (l : List String)
    (h : ∀ p ∈ l, ex p = false) :
    scanPaths ex l = (none, l.map Event.checkPath) := by
  induction l with
  | nil => rfl
  | cons p rest ih =>
    have hp : ex p = false := h p (by simp)
    have ih2 := ih (fun q hq => h q (by simp [hq]))
    simp [scanPaths, hp, ih2]

theorem flatpakStep_filter_check (env : Env) :
    ((flatpakStep env).2).filter Event.isCheckPath = [] := by
  unfold flatpakStep
  (repeat' split) <;> rfl

theorem pathLookup_filter_check (env : Env) :
    ((pathLookup env).2).filter Event.isCheckPath = [] := by
  unfold pathLookup
  (repeat' split) <;> rfl

theorem scanPaths_any (ex : String → Bool) (l : List String)
    (h : l.any ex = true) : ∃ r, (scanPaths ex l).1 = some r := by
  induction l with
  | nil => simp at h
  | cons p rest ih =>
    cases hp : ex p with
    | true => exact ⟨p, by simp [scanPaths, hp]⟩
    | false =>
      have hrest : rest.any ex = true := by simpa [hp] using h
      obtain ⟨r, hr⟩ := ih hrest
      exact ⟨r, by simp [scanPaths, hp, hr]⟩

theorem filter_check_self (t : List Event) (h : ∀ e ∈ t, e.isCheckPath = true) :
    t.filter Event.isCheckPath = t :=
  List.filter_eq_self.mpr (by intro e he; simp [h e he])

theorem find_chrome_filter_check (env : Env) :
    ((find_chrome env).2).filter Event.isCheckPath
      = (scanPaths env.pathExists possiblePaths).2 := by
  unfold find_chrome
  cases h1 : (scanPaths env.pathExists possiblePaths).1 with
  | some p =>
    simp [h1, filter_check_self _ (scanPaths_trace_check _ _)]
  | none =>
    cases h2 : (flatpakStep env).1 with
    | error exc =>
      simp [h1, h2, List.filter_append, filter_check_self _ (scanPaths_trace_check _ _),
            flatpakStep_filter_check]
    | ok op =>
      cases op with
      | some s =>
        simp [h1, h2, List.filter_append, filter_check_self _ (scanPaths_trace_check _ _),
              flatpakStep_filter_check]
      | none =>
        simp [h1, h2, List.filter_append, filter_check_self _ (scanPaths_trace_check _ _),
              flatpakStep_filter_check, pathLookup_filter_check]

/-- C2: whenever at least one candidate path exists on disk, `find_chrome`
returns the first existing path in list order, and the trace holds only
candidate-path existence checks — neither the Flatpak listing step nor the
PATH lookup step is reached. -/
theorem find_chrome_candidate_priority (env : Env)
    (h : possiblePaths.any env.pathExists = true) :
    (find_chrome env).1 = Except.ok (possiblePaths.find? env.pathExists)
    ∧ (∃ q, possiblePaths.find? env.pathExists = some q)
    ∧ ∀ e ∈ (find_chrome env).2, e.isCheckPath = true := by
  obtain ⟨r, h1⟩ := scanPaths_any env.pathExists possiblePaths h
  have hr : possiblePaths.find? env.pathExists = some r :=
    (scanPaths_fst _ _).symm.trans h1
  refine ⟨?_, ⟨r, hr⟩, ?_⟩
  · unfold find_chrome
    simp [h1, hr]
  · unfold find_chrome
    simp only [h1]
    exact scanPaths_trace_check _ _

/-- C2 witness: a filesystem where `/opt/google/chrome/chrome` is the only
existing candidate. -/
def c2Env : Env :=
  { pathExists := fun p => p = "/opt/google/chrome/chrome",
    systemName := "Linux",
    whichFlatpak := some "/usr/bin/flatpak",
    flatpakList := Except.ok { returncode := 0, stdout := "com.google.Chrome" },
    which := fun _ => Except.ok none }

theorem find_chrome_candidate_priority_witness :
    (find_chrome c2Env).1 = Except.ok (possiblePaths.find? c2Env.pathExists)
    ∧ (∃ q, possiblePaths.find? c2Env.pathExists = some q)
    ∧ ∀ e ∈ (find_chrome c2Env).2, e.isCheckPath = true :=
  find_chrome_candidate_priority c2Env (by decide)

theorem find_chrome_trace_cases (env : Env) :
    (find_chrome env).2 = (scanPaths env.pathExists possiblePaths).2
    ∨ (find_chrome env).2
        = (scanPaths env.pathExists possiblePaths).2 ++ (flatpakStep env).2
    ∨ (find_chrome env).2
        = (scanPaths env.pathExists possiblePaths).2 ++ (flatpakStep env).2
            ++ (pathLookup env).2 := by
  rcases h1 : (scanPaths env.pathExists possiblePaths).1 with _ | p
  · rcases h2 : (flatpakStep env).1 with exc | op
    · right; left; simp [find_chrome, h1, h2]
    · rcases op with _ | q
      · right; right; simp [find_chrome, h1, h2]
      · right; left; simp [find_chrome, h1, h2]
  · left; simp [find_chrome, h1]

theorem pathLookup_no_spawn (env : Env) :
    Event.spawnFlatpakList ∉ (pathLookup env).2 := by
  unfold pathLookup
  (repeat' split) <;> simp

theorem flatpakStep_spawn_guard (env : Env)
    (h : Event.spawnFlatpakList ∈ (flatpakStep env).2) :
    env.systemName = "Linux" ∧ pyTruthy env.whichFlatpak = true := by
  by_cases hL : env.systemName = "Linux"
  · by_cases hW : pyTruthy env.whichFlatpak = true
    · exact ⟨hL, hW⟩
    · exfalso; unfold flatpakStep at h; simp [hL, hW] at h
  · exfalso; unfold flatpakStep at h; simp [hL] at h

/-- C4: if the Flatpak listing subprocess was spawned during `find_chrome`,
then the platform is Linux and `shutil.which("flatpak")` resolved to a truthy
path; contrapositively, with `flatpak` absent from PATH (or off Linux) no
Flatpak listing process is ever spawned. -/
theorem find_chrome_flatpak_spawn_guard (env : Env)
    (h : Event.spawnFlatpakList ∈ (find_chrome env).2) :
    env.systemName = "Linux" ∧ pyTruthy env.whichFlatpak = true := by
  have hscan : Event.spawnFlatpakList ∉ (scanPaths env.pathExists possiblePaths).2 := by
    intro hmem
    have := scanPaths_trace_check env.pathExists possiblePaths _ hmem
    simp [Event.isCheckPath] at this
  have hmem2 : Event.spawnFlatpakList ∈ (flatpakStep env).2 := by
    rcases find_chrome_trace_cases env with hc | hc | hc <;> rw [hc] at h
    · exact absurd h hscan
    · rcases List.mem_append.mp h with h | h
      · exact absurd h hscan
      · exact h
    · rcases List.mem_append.mp h with h | h
      · rcases List.mem_append.mp h with h | h
        · exact absurd h hscan
        · exact h
      · exact absurd h (pathLookup_no_spawn env)
  exact flatpakStep_spawn_guard env hmem2

/-- C4 witness environment: Linux host, `flatpak` on PATH, no candidate path
on disk, listing succeeds but shows no Chrome app. -/
def c4Env : Env :=
  { pathExists := fun _ => false,
    systemName := "Linux",
    whichFlatpak := some "/usr/bin/flatpak",
    flatpakList := Except.ok { returncode := 0, stdout := "org.gnome.Maps" },
    which := fun _ => Except.ok none }

theorem find_chrome_flatpak_spawn_guard_witness :
    c4Env.systemName = "Linux" ∧ pyTruthy c4Env.whichFlatpak = true :=
  find_chrome_flatpak_spawn_guard c4Env (by decide)

/-- C10: the candidate scan has exactly nine entries, its fourth entry is the
literal unexpanded `%USERNAME%` Windows profile path (so only a path literally
containing a `%USERNAME%` component can match it), and the existence checks
performed are determined by the filesystem alone — the same scan runs on every
operating system, and with no candidate present all nine paths are tested in
list order. -/
theorem find_chrome_scan_platform_blind :
    possiblePaths.length = 9
    ∧ possiblePaths[3]? =
        some "C:\\Users\\%USERNAME%\\AppData\\Local\\Google\\Chrome\\Application\\chrome.exe"
    ∧ strContains
        "C:\\Users\\%USERNAME%\\AppData\\Local\\Google\\Chrome\\Application\\chrome.exe"
        "%USERNAME%" = true
    ∧ ∀ env : Env,
        (find_chrome env).2.filter Event.isCheckPath
            = (scanPaths env.pathExists possiblePaths).2
        ∧ ((∀ p ∈ possiblePaths, env.pathExists p = false) →
            (find_chrome env).2.filter Event.isCheckPath
              = possiblePaths.map Event.checkPath) := by
  refine ⟨by decide, by decide, by decide, fun env => ⟨find_chrome_filter_check env, fun h => ?_⟩⟩
  rw [find_chrome_filter_check env, scanPaths_none env.pathExists possiblePaths h]

/-- C10 witness environment: a Windows host where no candidate exists. -/
def c10Env : Env :=
  { pathExists := fun _ => false,
    systemName := "Windows",
    whichFlatpak := none,
    flatpakList := Except.ok { returncode := 0, stdout := "" },
    which := fun _ => Except.ok none }

theorem find_chrome_scan_platform_blind_witness :
    (find_chrome c10Env).2.filter Event.isCheckPath
      = possiblePaths.map Event.checkPath :=
  (find_chrome_scan_platform_blind.2.2.2 c10Env).2 (by decide)

theorem get_options_args (g : String → Option String) :
    (get_options g).args =
      if pyLower ((g "HEADLESS").getD "false") = "true" then
        ["--start-maximised", "--disable-extensions", "--disable-gpu",
         "--no-sandbox", "--headless=new"]
      else
        ["--start-maximised", "--disable-extensions", "--disable-gpu",
         "--no-sandbox"] := by
  by_cases h : pyLower ((g "HEADLESS").getD "false") = "true" <;>
    simp [get_options, add_argument, emptyOptions, h]

theorem get_options_binary_location (g : String → Option String) :
    (get_options g).binary_location = none := by
  by_cases h : pyLower ((g "HEADLESS").getD "false") = "true" <;>
    simp [get_options, add_argument, emptyOptions, h]

/-- C3: the configuration built by `get_options` always holds the maximised
window, extensions-disabled, GPU-disabled and sandbox-disabled options, and
holds `--headless=new` exactly when the `HEADLESS` environment variable is set
to a string whose lower-casing is `"true"`; any other value or an unset
variable yields no headless option. -/
theorem get_options_spec (g : String → Option String) :
    "--start-maximised" ∈ (get_options g).args
    ∧ "--disable-extensions" ∈ (get_options g).args
    ∧ "--disable-gpu" ∈ (get_options g).args
    ∧ "--no-sandbox" ∈ (get_options g).args
    ∧ ("--headless=new" ∈ (get_options g).args
        ↔ ∃ s, g "HEADLESS" = some s ∧ pyLower s = "true") := by
  by_cases h : pyLower ((g "HEADLESS").getD "false") = "true"
  · simp only [get_options_args g, if_pos h]
    refine ⟨by decide, by decide, by decide, by decide, ?_⟩
    constructor
    · intro _
      rcases hg : g "HEADLESS" with _ | s
      · rw [hg] at h
        simp only [Option.getD_none] at h
        exact absurd h (by decide)
      · refine ⟨s, rfl, ?_⟩
        rw [hg] at h
        simpa using h
    · intro _
      decide
  · simp only [get_options_args g, if_neg h]
    refine ⟨by decide, by decide, by decide, by decide, ?_⟩
    constructor
    · intro hm
      exact absurd hm (by decide)
    · rintro ⟨s, hs, hs2⟩
      refine absurd ?_ h
      rw [hs]
      simpa using hs2

theorem flatpakStep_caught (env : Env) (m : String)
    (hL : env.systemName = "Linux") (hW : pyTruthy env.whichFlatpak = true)
    (he : env.flatpakList = Except.error (SubprocFail.timeoutExpired m)
          ∨ env.flatpakList = Except.error (SubprocFail.subprocessError m)) :
    flatpakStep env
      = (Except.ok none,
         [Event.spawnFlatpakList,
          Event.logWarning ("Error checking Flatpak installations: " ++ m)]) := by
  rcases he with he | he <;> (unfold flatpakStep; simp [hL, hW, he])

theorem flatpakStep_osError (env : Env) (m : String)
    (hL : env.systemName = "Linux") (hW : pyTruthy env.whichFlatpak = true)
    (he : env.flatpakList = Except.error (SubprocFail.osError m)) :
    flatpakStep env = (Except.error m, [Event.spawnFlatpakList]) := by
  unfold flatpakStep
  simp [hL, hW, he]

theorem flatpakStep_nonzero (env : Env) (r : FlatpakResult)
    (hL : env.systemName = "Linux") (hW : pyTruthy env.whichFlatpak = true)
    (hres : env.flatpakList = Except.ok r) (hrc : ¬ r.returncode = 0) :
    flatpakStep env = (Except.ok none, [Event.spawnFlatpakList]) := by
  unfold flatpakStep
  simp [hL, hW, hres, hrc]

theorem find_chrome_fallthrough (env : Env)
    (h1 : (scanPaths env.pathExists possiblePaths).1 = none)
    (h2 : (flatpakStep env).1 = Except.ok none) :
    find_chrome env
      = (Except.ok (pathLookup env).1,
         (scanPaths env.pathExists possiblePaths).2 ++ (flatpakStep env).2
           ++ (pathLookup env).2) := by
  simp [find_chrome, h1, h2]

theorem find_chrome_raise (env : Env) (exc : PyExc)
    (h1 : (scanPaths env.pathExists possiblePaths).1 = none)
    (h2 : (flatpakStep env).1 = Except.error exc) :
    find_chrome env
      = (Except.error exc,
         (scanPaths env.pathExists possiblePaths).2 ++ (flatpakStep env).2) := by
  simp [find_chrome, h1, h2]

theorem pathLookup_has_lookup (env : Env) :
    ∃ c, Event.lookupWhich c ∈ (pathLookup env).2 := by
  unfold pathLookup
  by_cases h : env.systemName = "Windows"
  · simp only [if_pos h]
    split <;> exact ⟨"chrome", by simp⟩
  · simp only [if_neg h]
    split
    · exact ⟨"google-chrome", by simp⟩
    · split
      · exact ⟨"google-chrome", by simp⟩
      · split <;> exact ⟨"google-chrome", by simp⟩

theorem pathLookup_no_logWarning (env : Env) (m : String) :
    Event.logWarning m ∉ (pathLookup env).2 := by
  unfold pathLookup
  (repeat' split) <;> simp

theorem pathLookup_congr (a b : Env) (hs : a.systemName = b.systemName)
    (hw : a.which = b.which) : pathLookup a = pathLookup b := by
  unfold pathLookup
  rw [hs, hw]

/-- C5 (amended): `find_chrome` absorbs exactly the probe failures the except
clause names.  A `TimeoutExpired` or `SubprocessError` failure of the Flatpak
listing is logged as a warning and the locator proceeds to the PATH lookup
step; an `OSError` spawn failure is not caught — `find_chrome` raises it,
with no warning logged and the PATH-lookup step never reached.  A raised
PATH-lookup failure is caught, logged as an error, and yields "not found";
when no strategy matches, `find_chrome` returns "not found" rather than
raising. -/
theorem find_chrome_failure_semantics (env : Env) :
    (∀ m : String, env.systemName = "Linux" → pyTruthy env.whichFlatpak = true →
       (env.flatpakList = Except.error (SubprocFail.timeoutExpired m)
         ∨ env.flatpakList = Except.error (SubprocFail.subprocessError m)) →
       (∀ p ∈ possiblePaths, env.pathExists p = false) →
       Event.logWarning ("Error checking Flatpak installations: " ++ m)
           ∈ (find_chrome env).2
       ∧ (∃ c, Event.lookupWhich c ∈ (find_chrome env).2)
       ∧ (find_chrome env).1 = Except.ok (pathLookup env).1)
    ∧ (∀ m : String, env.systemName = "Linux" → pyTruthy env.whichFlatpak = true →
       env.flatpakList = Except.error (SubprocFail.osError m) →
       (∀ p ∈ possiblePaths, env.pathExists p = false) →
       (find_chrome env).1 = Except.error m
       ∧ (find_chrome env).2.filter Event.isLogWarning = []
       ∧ (find_chrome env).2.filter Event.isLookup = [])
    ∧ (∀ exc : PyExc, env.systemName ≠ "Windows" →
        env.which "google-chrome" = Except.error exc →
        pathLookup env
          = (none, [Event.lookupWhich "google-chrome",
              Event.logError ("Error while searching system paths for Chrome: " ++ exc)]))
    ∧ (∀ exc : PyExc, env.systemName = "Windows" →
        env.which "chrome" = Except.error exc →
        pathLookup env
          = (none, [Event.lookupWhich "chrome",
              Event.logError ("Error while searching system paths for Chrome: " ++ exc)]))
    ∧ ((∀ p ∈ possiblePaths, env.pathExists p = false) →
        (flatpakStep env).1 = Except.ok none → (pathLookup env).1 = none →
        (find_chrome env).1 = Except.ok none) := by
  refine ⟨?_, ?_, ?_, ?_, ?_⟩
  · intro m hL hW he hnone
    have hs := scanPaths_none env.pathExists possiblePaths hnone
    have hf := flatpakStep_caught env m hL hW he
    have hfc := find_chrome_fallthrough env (by rw [hs]) (by rw [hf])
    rw [hfc]
    refine ⟨?_, ?_, rfl⟩
    · rw [hf]
      simp
    · obtain ⟨c, hc⟩ := pathLookup_has_lookup env
      exact ⟨c, List.mem_append_right _ hc⟩
  · intro m hL hW he hnone
    have hs := scanPaths_none env.pathExists possiblePaths hnone
    have hf := flatpakStep_osError env m hL hW he
    rw [find_chrome_raise env m (by rw [hs]) (by rw [hf])]
    refine ⟨rfl, ?_, ?_⟩ <;>
    · rw [hs, hf]
      simp [List.filter_append, List.filter_map, Event.isLogWarning, Event.isLookup,
        Function.comp]
  · intro exc hnw hwe
    unfold pathLookup
    simp [hnw, hwe]
  · intro exc hw hwe
    unfold pathLookup
    simp [hw, hwe]
  · intro hnone h2 h3
    have hs := scanPaths_none env.pathExists possiblePaths hnone
    rw [find_chrome_fallthrough env (by rw [hs]) h2, h3]

/-- C5 witness environment: Linux host with `flatpak` on PATH whose listing
call times out, no candidate path, no PATH hit. -/
def c5Env : Env :=
  { pathExists := fun _ => false,
    systemName := "Linux",
    whichFlatpak := some "/usr/bin/flatpak",
    flatpakList := Except.error (SubprocFail.timeoutExpired "timed out after 10s"),
    which := fun _ => Except.ok none }

theorem find_chrome_failure_semantics_witness :
    Event.logWarning ("Error checking Flatpak installations: " ++ "timed out after 10s")
        ∈ (find_chrome c5Env).2
    ∧ (∃ c, Event.lookupWhich c ∈ (find_chrome c5Env).2)
    ∧ (find_chrome c5Env).1 = Except.ok (pathLookup c5Env).1 :=
  (find_chrome_failure_semantics c5Env).1 "timed out after 10s" rfl (by decide)
    (Or.inl rfl) (by decide)

/-- C5 counterexample environment: the Flatpak listing spawn raises an
`OSError` (the `flatpak` binary vanished between the `shutil.which` guard and
the `subprocess.run` call), a failure the except clause does not name. -/
def cex5Env : Env :=
  { pathExists := fun _ => false,
    systemName := "Linux",
    whichFlatpak := some "/usr/bin/flatpak",
    flatpakList := Except.error (SubprocFail.osError "FileNotFoundError: flatpak"),
    which := fun _ => Except.ok none }

/-- C5 counterexample: with a spawn `OSError` from the listing call,
`find_chrome` raises instead of returning, logs no warning, and never reaches
the PATH-lookup step — refuting "find_chrome never raises" and "a spawn
failure is logged and the locator proceeds to the PATH lookup step". -/
theorem find_chrome_spawn_raises_counterexample :
    (find_chrome cex5Env).1 = Except.error "FileNotFoundError: flatpak"
    ∧ (find_chrome cex5Env).2.filter Event.isLogWarning = []
    ∧ (find_chrome cex5Env).2.filter Event.isLookup = [] := by
  decide

/-- C6 scenario environment: Linux, no candidate path on disk, `flatpak`
present but its listing names no known Chrome app id, and the PATH lookup
resolves `google-chrome` to `/usr/bin/google-chrome`. -/
def c6Env : Env :=
  { pathExists := fun _ => false,
    systemName := "Linux",
    whichFlatpak := some "/usr/bin/flatpak",
    flatpakList := Except.ok
      { returncode := 0,
        stdout := "Name          Application ID      Version  Branch\nMaps          org.gnome.Maps      45.0     stable" },
    which := fun c =>
      if c = "google-chrome" then Except.ok (some "/usr/bin/google-chrome")
      else Except.ok none }

/-- C6: the PATH-lookup step looks up `chrome` on Windows and, elsewhere,
`google-chrome` first with `chromium` consulted only when `google-chrome` did
not resolve; a resolved path is returned.  In the scenario with no candidate
path, a Flatpak listing naming no known app id, and `google-chrome` resolving
to `/usr/bin/google-chrome`, `find_chrome` returns `/usr/bin/google-chrome`. -/
theorem pathLookup_commands (env : Env) :
    (env.systemName = "Windows" →
        (pathLookup env).2.filter Event.isLookup = [Event.lookupWhich "chrome"])
    ∧ (env.systemName ≠ "Windows" →
        (pathLookup env).2.head? = some (Event.lookupWhich "google-chrome"))
    ∧ (∀ p, env.systemName ≠ "Windows" →
        env.which "google-chrome" = Except.ok (some p) → p ≠ "" →
        (pathLookup env).1 = some p
          ∧ Event.lookupWhich "chromium" ∉ (pathLookup env).2)
    ∧ (env.systemName ≠ "Windows" →
        Event.lookupWhich "chromium" ∈ (pathLookup env).2 →
        ¬ ∃ p, env.which "google-chrome" = Except.ok (some p) ∧ p ≠ "")
    ∧ (find_chrome c6Env).1 = Except.ok (some "/usr/bin/google-chrome") := by
  refine ⟨?_, ?_, ?_, ?_, by decide⟩
  · intro h
    unfold pathLookup
    simp only [if_pos h]
    split <;> simp [Event.isLookup]
  · intro h
    unfold pathLookup
    simp only [if_neg h]
    split
    · simp
    · split
      · simp
      · split <;> simp
  · intro p hnw hok hne
    unfold pathLookup
    have ht : pyTruthy (some p) = true := by simp [pyTruthy, hne]
    simp [hnw, hok, ht]
  · intro hnw hmem
    rintro ⟨p, hok, hne⟩
    unfold pathLookup at hmem
    have ht : pyTruthy (some p) = true := by simp [pyTruthy, hne]
    simp [hnw, hok, ht] at hmem

/-- C6 witness environment for the Windows conjunct. -/
def c6wEnv : Env :=
  { pathExists := fun _ => false,
    systemName := "Windows",
    whichFlatpak := none,
    flatpakList := Except.ok { returncode := 0, stdout := "" },
    which := fun _ => Except.ok (some "C:\\tools\\chrome.exe") }

theorem pathLookup_commands_witness :
    (pathLookup c6wEnv).2.filter Event.isLookup = [Event.lookupWhich "chrome"]
    ∧ ((pathLookup c6Env).1 = some "/usr/bin/google-chrome"
        ∧ Event.lookupWhich "chromium" ∉ (pathLookup c6Env).2) :=
  ⟨(pathLookup_commands c6wEnv).1 rfl,
   (pathLookup_commands c6Env).2.2.1 "/usr/bin/google-chrome" (by decide) rfl
     (by decide)⟩

/-- C9: when the Flatpak listing completes with a non-zero return code,
`find_chrome` never inspects the captured output — any environment agreeing
on everything but the (non-zero-exit) listing result produces the identical
result and trace — no warning is logged anywhere in the run, and (when no
candidate path exists) the locator proceeds to the PATH-lookup step. -/
theorem find_chrome_nonzero_returncode (env : Env) (r : FlatpakResult)
    (hL : env.systemName = "Linux") (hW : pyTruthy env.whichFlatpak = true)
    (hres : env.flatpakList = Except.ok r) (hrc : ¬ r.returncode = 0) :
    (∀ (env2 : Env) (r2 : FlatpakResult),
        env2.pathExists = env.pathExists → env2.systemName = env.systemName →
        env2.whichFlatpak = env.whichFlatpak → env2.which = env.which →
        env2.flatpakList = Except.ok r2 → ¬ r2.returncode = 0 →
        find_chrome env2 = find_chrome env)
    ∧ (∀ m, Event.logWarning m ∉ (find_chrome env).2)
    ∧ ((∀ p ∈ possiblePaths, env.pathExists p = false) →
        ∃ c, Event.lookupWhich c ∈ (find_chrome env).2) := by
  have hf : flatpakStep env = (Except.ok none, [Event.spawnFlatpakList]) :=
    flatpakStep_nonzero env r hL hW hres hrc
  refine ⟨?_, ?_, ?_⟩
  · intro env2 r2 h1 h2 h3 h4 h5 h6
    have hf2 : flatpakStep env2 = (Except.ok none, [Event.spawnFlatpakList]) :=
      flatpakStep_nonzero env2 r2 (h2.trans hL) (by rw [h3]; exact hW) h5 h6
    have hpl : pathLookup env2 = pathLookup env := pathLookup_congr env2 env h2 h4
    simp only [find_chrome, h1, hf, hf2, hpl]
  · intro m hmem
    rcases find_chrome_trace_cases env with hc | hc | hc <;> rw [hc] at hmem
    · have := scanPaths_trace_check env.pathExists possiblePaths _ hmem
      simp [Event.isCheckPath] at this
    · rcases List.mem_append.mp hmem with hmem | hmem
      · have := scanPaths_trace_check env.pathExists possiblePaths _ hmem
        simp [Event.isCheckPath] at this
      · rw [hf] at hmem
        simp at hmem
    · rcases List.mem_append.mp hmem with hmem | hmem
      · rcases List.mem_append.mp hmem with hmem | hmem
        · have := scanPaths_trace_check env.pathExists possiblePaths _ hmem
          simp [Event.isCheckPath] at this
        · rw [hf] at hmem
          simp at hmem
      · exact absurd hmem (pathLookup_no_logWarning env m)
  · intro hnone
    have hs := scanPaths_none env.pathExists possiblePaths hnone
    obtain ⟨c, hc⟩ := pathLookup_has_lookup env
    refine ⟨c, ?_⟩
    rw [find_chrome_fallthrough env (by rw [hs]) (by rw [hf])]
    exact List.mem_append_right _ hc

/-- C9 witness environment: the listing exits with code 1 while its stdout
even names `com.google.Chrome`; the id is still ignored. -/
def c9Env : Env :=
  { pathExists := fun _ => false,
    systemName := "Linux",
    whichFlatpak := some "/usr/bin/flatpak",
    flatpakList := Except.ok { returncode := 1, stdout := "com.google.Chrome" },
    which := fun _ => Except.ok none }

theorem find_chrome_nonzero_returncode_witness :
    ∃ c, Event.lookupWhich c ∈ (find_chrome c9Env).2 :=
  (find_chrome_nonzero_returncode c9Env
      { returncode := 1, stdout := "com.google.Chrome" }
      rfl (by decide) rfl (by decide)).2.2 (by decide)

/-- The options object of the Flatpak retry: binary location set to the
wrapper script and the two Flatpak-specific arguments added. -/
def flatpakRetryOpts (g : String → Option String) (wrapper : String) : ChromeOptions :=
  add_argument
    (add_argument { get_options g with binary_location := some wrapper }
      "--disable-dev-shm-usage")
    "--disable-setuid-sandbox"

theorem flatpakStep_error_source (env : Env) (exc : PyExc)
    (h : (flatpakStep env).1 = Except.error exc) :
    env.flatpakList = Except.error (SubprocFail.osError exc) := by
  unfold flatpakStep at h
  (repeat' split at h) <;> simp_all

theorem find_chrome_error_source (env : Env) (exc : PyExc)
    (h : (find_chrome env).1 = Except.error exc) :
    env.flatpakList = Except.error (SubprocFail.osError exc) := by
  unfold find_chrome at h
  rcases h1 : (scanPaths env.pathExists possiblePaths).1 with _ | p
  · rcases h2 : (flatpakStep env).1 with e2 | op
    · simp only [h1, h2] at h
      simp at h
      subst h
      exact flatpakStep_error_source env e2 h2
    · rcases op with _ | q <;> simp [h1, h2] at h
  · simp [h1] at h

theorem create_driver_error_cases (env : DrvEnv) (r : Raised)
    (h : (create_driver env).1 = Except.error r) :
    r = Raised.terminal terminalMsg
    ∨ ∃ m, r = Raised.uncaught m ∧ (find_chrome env.fenv).1 = Except.error m := by
  unfold create_driver at h
  by_cases h0 : env.constructOk (get_options env.getEnvVar) none = true
  · rw [if_pos h0] at h
    simp at h
  · rw [if_neg h0] at h
    dsimp only at h
    (repeat' split at h) <;> simp_all

/-- C1 (amended): `create_driver` yields a live driver handle, or raises the
single terminal error, or re-raises the uncaught spawn `OSError` that escaped
the Flatpak listing call inside `find_chrome` — nothing else; and when the
default attempt fails and `find_chrome` returns "not found", the terminal
error is raised after exactly one construction attempt (the initial default
one). -/
theorem create_driver_terminal_outcome (env : DrvEnv) :
    ((∃ d, (create_driver env).1 = Except.ok d)
       ∨ (create_driver env).1 = Except.error (Raised.terminal terminalMsg)
       ∨ ∃ m, env.fenv.flatpakList = Except.error (SubprocFail.osError m)
           ∧ (create_driver env).1 = Except.error (Raised.uncaught m))
    ∧ (env.constructOk (get_options env.getEnvVar) none = false →
        (find_chrome env.fenv).1 = Except.ok none →
        (create_driver env).1 = Except.error (Raised.terminal terminalMsg)
        ∧ ((create_driver env).2.filter DEvent.isConstruct).length = 1) := by
  constructor
  · cases h : (create_driver env).1 with
    | ok d => exact Or.inl ⟨d, rfl⟩
    | error r =>
      rcases create_driver_error_cases env r h with hr | ⟨m, hm, hfind⟩
      · exact Or.inr (Or.inl (by rw [hr]))
      · exact Or.inr (Or.inr
          ⟨m, find_chrome_error_source env.fenv m hfind, by rw [hm]⟩)
  · intro hdef hfind
    unfold create_driver
    simp [hdef, hfind, DEvent.isConstruct]

/-- C1 witness environment: every construction attempt fails and no discovery
strategy matches. -/
def c1Env : DrvEnv :=
  { fenv :=
      { pathExists := fun _ => false,
        systemName := "Darwin",
        whichFlatpak := none,
        flatpakList := Except.ok { returncode := 0, stdout := "" },
        which := fun _ => Except.ok none },
    getEnvVar := fun _ => none,
    tempName := "/tmp/tmp1a2b3c.sh",
    constructOk := fun _ _ => false,
    unlinkFails := false }

theorem create_driver_terminal_outcome_witness :
    (create_driver c1Env).1 = Except.error (Raised.terminal terminalMsg)
    ∧ ((create_driver c1Env).2.filter DEvent.isConstruct).length = 1 :=
  (create_driver_terminal_outcome c1Env).2 rfl (by decide)

/-- C1 counterexample environment: default construction fails and the Flatpak
listing spawn raises an uncaught `OSError`. -/
def cex1Env : DrvEnv :=
  { fenv :=
      { pathExists := fun _ => false,
        systemName := "Linux",
        whichFlatpak := some "/usr/bin/flatpak",
        flatpakList := Except.error (SubprocFail.osError "OSError: Errno 8 Exec format error"),
        which := fun _ => Except.ok none },
    getEnvVar := fun _ => none,
    tempName := "/tmp/tmp7g8h9i.sh",
    constructOk := fun _ _ => false,
    unlinkFails := false }

/-- C1 counterexample: the `OSError` escaping the listing call propagates out
of `create_driver` — the outcome is neither a driver handle nor the terminal
error, refuting "no exception other than the terminal one propagates to the
caller". -/
theorem create_driver_uncaught_counterexample :
    (create_driver cex1Env).1
      = Except.error (Raised.uncaught "OSError: Errno 8 Exec format error")
    ∧ Raised.uncaught "OSError: Errno 8 Exec format error"
        ≠ Raised.terminal terminalMsg := by
  decide

/-- C7: when `find_chrome` hands back a Flatpak invocation string, the run
creates the wrapper script (mode `0o755`) whose body execs the command
forwarding all arguments, retries construction with the wrapper as both the
options' binary location and the explicit executable path, and the retry
options extend the defaults by exactly `--disable-dev-shm-usage` and
`--disable-setuid-sandbox`. -/
theorem create_driver_flatpak_wrapper (env : DrvEnv) (s : String)
    (hdef : env.constructOk (get_options env.getEnvVar) none = false)
    (hfind : (find_chrome env.fenv).1 = Except.ok (some s))
    (hfp : strStartsWith s "flatpak run" = true) :
    DEvent.createWrapper env.tempName
        ("#!/bin/bash\nexec " ++ s ++ " \"$@\"\n") 0o755 ∈ (create_driver env).2
    ∧ DEvent.constructAttempt (flatpakRetryOpts env.getEnvVar env.tempName)
        (some env.tempName) ∈ (create_driver env).2
    ∧ (flatpakRetryOpts env.getEnvVar env.tempName).binary_location
        = some env.tempName
    ∧ (flatpakRetryOpts env.getEnvVar env.tempName).args
        = (get_options env.getEnvVar).args
            ++ ["--disable-dev-shm-usage", "--disable-setuid-sandbox"] := by
  refine ⟨?_, ?_, by simp [flatpakRetryOpts, add_argument],
    by simp [flatpakRetryOpts, add_argument]⟩ <;>
  · unfold create_driver
    simp only [hdef, Bool.false_eq_true, if_false, hfind, hfp, if_true,
      create_flatpak_wrapper_script, wrapper_content]
    split <;>
      simp [flatpakRetryOpts, add_argument, create_flatpak_wrapper_script,
        wrapper_content]

/-- C7 witness environment: the default attempt fails, `find_chrome` finds
the Flatpak Chrome, the retry also fails. -/
def c7Env : DrvEnv :=
  { fenv :=
      { pathExists := fun _ => false,
        systemName := "Linux",
        whichFlatpak := some "/usr/bin/flatpak",
        flatpakList := Except.ok
          { returncode := 0,
            stdout := "Google Chrome\tcom.google.Chrome\t120.0\tstable" },
        which := fun _ => Except.ok none },
    getEnvVar := fun _ => none,
    tempName := "/tmp/tmp9z8y7x.sh",
    constructOk := fun _ _ => false,
    unlinkFails := false }

theorem create_driver_flatpak_wrapper_witness :
    DEvent.createWrapper c7Env.tempName
        ("#!/bin/bash\nexec " ++ "flatpak run com.google.Chrome" ++ " \"$@\"\n")
        0o755 ∈ (create_driver c7Env).2
    ∧ DEvent.constructAttempt (flatpakRetryOpts c7Env.getEnvVar c7Env.tempName)
        (some c7Env.tempName) ∈ (create_driver c7Env).2 :=
  ⟨(create_driver_flatpak_wrapper c7Env "flatpak run com.google.Chrome"
      rfl (by decide) (by decide)).1,
   (create_driver_flatpak_wrapper c7Env "flatpak run com.google.Chrome"
      rfl (by decide) (by decide)).2.1⟩

/-- C8: on the Flatpak fallback path, if the retry construction fails the
wrapper script is unlinked best-effort — the conclusion holds for every value
of the unlink-failure oracle, so a deletion error is swallowed — and the
terminal error is the result; if the retry succeeds, the driver handle is
returned and no unlink of any path ever happens. -/
theorem create_driver_wrapper_cleanup (env : DrvEnv) (s : String)
    (hdef : env.constructOk (get_options env.getEnvVar) none = false)
    (hfind : (find_chrome env.fenv).1 = Except.ok (some s))
    (hfp : strStartsWith s "flatpak run" = true) :
    (env.constructOk (flatpakRetryOpts env.getEnvVar env.tempName)
        (some env.tempName) = false →
      (create_driver env).1 = Except.error (Raised.terminal terminalMsg)
      ∧ DEvent.unlinkWrapper env.tempName (!env.unlinkFails) ∈ (create_driver env).2)
    ∧ (env.constructOk (flatpakRetryOpts env.getEnvVar env.tempName)
        (some env.tempName) = true →
      (create_driver env).1
        = Except.ok { opts := flatpakRetryOpts env.getEnvVar env.tempName,
                      execPath := some env.tempName }
      ∧ ∀ p b, DEvent.unlinkWrapper p b ∉ (create_driver env).2) := by
  constructor
  · intro hr
    simp [flatpakRetryOpts, add_argument] at hr
    unfold create_driver
    simp only [hdef, Bool.false_eq_true, if_false, hfind, hfp, if_true,
      create_flatpak_wrapper_script, wrapper_content]
    simp [hr, add_argument]
  · intro hr
    simp [flatpakRetryOpts, add_argument] at hr
    unfold create_driver
    simp only [hdef, Bool.false_eq_true, if_false, hfind, hfp, if_true,
      create_flatpak_wrapper_script, wrapper_content]
    simp [hr, flatpakRetryOpts, add_argument]

/-- C8 witness environment: like the C7 one but the unlink itself fails,
showing the deletion error is swallowed. -/
def c8Env : DrvEnv :=
  { fenv :=
      { pathExists := fun _ => false,
        systemName := "Linux",
        whichFlatpak := some "/usr/bin/flatpak",
        flatpakList := Except.ok
          { returncode := 0,
            stdout := "Google Chrome\tcom.google.Chrome\t120.0\tstable" },
        which := fun _ => Except.ok none },
    getEnvVar := fun _ => none,
    tempName := "/tmp/tmp4d5e6f.sh",
    constructOk := fun _ _ => false,
    unlinkFails := true }

theorem create_driver_wrapper_cleanup_witness :
    (create_driver c8Env).1 = Except.error (Raised.terminal terminalMsg)
    ∧ DEvent.unlinkWrapper c8Env.tempName (!c8Env.unlinkFails)
        ∈ (create_driver c8Env).2 :=
  (create_driver_wrapper_cleanup c8Env "flatpak run com.google.Chrome"
    rfl (by decide) (by decide)).1 rfl
